import Mathlib

/-! Shallow embedding of the AI news aggregator (`aggregator/` package):
the per-source fetchers (`openai_news.py`, `smol_ai.py`, `youtube.py`)
and the runner (`runner.py`).

External collaborators (HTTP client, feedparser, BeautifulSoup text
extraction, RFC-2822 date parsing, transcript backend, the clock) are
passed in as explicit inputs; everything the repository itself computes
is translated faithfully from the Python source.  Timestamps are
modelled as `Int` (UTC seconds); the only operation the code performs
on them is comparison.
-/

set_option autoImplicit false

namespace Agg

/-! Python string primitives. -/

/-- Characters treated as whitespace by Python's `str.strip()` (ASCII range). -/
def isPyWS (c : Char) : Bool :=
  c = ' ' || c = '\t' || c = '\n' || c = '\r' || c = '\x0b' || c = '\x0c'

/-- Model of Python `str.strip()`: drop leading and trailing whitespace. -/
def pyStrip (s : String) : String :=
  String.mk (((s.toList.dropWhile isPyWS).reverse.dropWhile isPyWS).reverse)

/-- One step of `re.sub(r"[ \t]+", " ", text)`: each maximal run of spaces
and tabs becomes a single space.  The flag records whether the previous
character was part of such a run. -/
def cstAux : Bool → List Char → List Char
  | _, [] => []
  | prevWS, c :: rest =>
    if c = ' ' || c = '\t' then
      (if prevWS then [] else [' ']) ++ cstAux true rest
    else
      c :: cstAux false rest

/-- Model of `re.sub(r"[ \t]+", " ", text)`. -/
def collapseSpaceTab (s : String) : String :=
  String.mk (cstAux false s.toList)

/-- Emit a pending run of `n` newlines: runs of three or more collapse to
exactly two, shorter runs pass through (the action of `re.sub(r"\n\x7b3,\x7d", "\n\n", text)`
on one maximal run). -/
def emitNLRun (n : Nat) : List Char :=
  if 3 ≤ n then ['\n', '\n'] else List.replicate n '\n'

/-- Scanner for `re.sub(r"\n\x7b3,\x7d", "\n\n", text)`: `n` counts the newlines of
the current (still pending) run. -/
def cnlAux : Nat → List Char → List Char
  | n, [] => emitNLRun n
  | n, c :: rest =>
    if c = '\n' then cnlAux (n + 1) rest
    else emitNLRun n ++ c :: cnlAux 0 rest

/-- Model of `re.sub(r"\n\x7b3,\x7d", "\n\n", text)`. -/
def collapseNewlines (s : String) : String :=
  String.mk (cnlAux 0 s.toList)

/-! Model of the external HTML text extraction.

The sanitizer delegates tag removal and entity decoding to
`BeautifulSoup(raw, "html.parser").get_text(separator=" ")`, an external
collaborator.  We model it for well-formed simple markup: the document is
cut into text chunks at tag boundaries, character entities are decoded
in place (the standard five named references), and the chunks are joined
with the separator.  Whitespace inside text chunks is preserved, as
`get_text` does (default `strip=False`). -/

/-- Scanner for the modelled `get_text`: `inTag` says whether we are inside
`<`...`>`, `cur` holds the current text chunk in reverse. -/
def bsScanAux : Bool → List Char → List Char → List String
  | _, cur, [] =>
    if cur.isEmpty then [] else [String.mk cur.reverse]
  | true, cur, c :: rest =>
    if c = '>' then bsScanAux false cur rest else bsScanAux true cur rest
  | false, cur, '<' :: rest =>
    (if cur.isEmpty then [] else [String.mk cur.reverse]) ++ bsScanAux true [] rest
  | false, cur, '&' :: 'a' :: 'm' :: 'p' :: ';' :: rest => bsScanAux false ('&' :: cur) rest
  | false, cur, '&' :: 'l' :: 't' :: ';' :: rest => bsScanAux false ('<' :: cur) rest
  | false, cur, '&' :: 'g' :: 't' :: ';' :: rest => bsScanAux false ('>' :: cur) rest
  | false, cur, '&' :: 'q' :: 'u' :: 'o' :: 't' :: ';' :: rest => bsScanAux false ('"' :: cur) rest
  | false, cur, '&' :: 'a' :: 'p' :: 'o' :: 's' :: ';' :: rest => bsScanAux false ('\'' :: cur) rest
  | false, cur, c :: rest => bsScanAux false (c :: cur) rest

/-- Model of `BeautifulSoup(raw, "html.parser").get_text(separator=sep)`:
text chunks between tags, entity-decoded, joined by `sep`. -/
def bsGetText (sep : String) (raw : String) : String :=
  String.intercalate sep (bsScanAux false [] raw.toList)

/-- Embedding of `_strip_html` (identical in `openai_news.py` and
`smol_ai.py`): extract text with separator `" "`, collapse space and tab
runs, collapse runs of three or more newlines to a blank line, strip. -/
def _strip_html (raw : String) : String :=
  let text := bsGetText (" ") raw
  let text := collapseSpaceTab text
  let text := collapseNewlines text
  pyStrip text

/-! Feed data model.  `feedparser` hands each fetcher a feed object with a
`bozo` flag and a list of entry dictionaries; the fields the code reads are
modelled as optional values (`none` = key absent).  A feed-parse call that
raises is modelled as the `Except.error` side of the parse input. -/

/-- One element of `entries[n].content` as surfaced by feedparser
(`content:encoded`): the code reads its `value` key. -/
structure ContentValue where
  value : Option String := none
deriving Repr, DecidableEq

/-- The fields of a feedparser entry dictionary read by any fetcher. -/
structure FeedItem where
  link : Option String := none
  title : Option String := none
  published_parsed : Option Int := none
  published : Option String := none
  summary : Option String := none
  yt_videoid : Option String := none
  media_description : Option String := none
  content : List ContentValue := []
deriving Repr, DecidableEq

/-- A parsed feed: the `bozo` malformed-feed flag and the entry list. -/
structure Feed where
  bozo : Bool := false
  entries : List FeedItem := []
deriving Repr, DecidableEq

/-- Entry record produced by `fetch_openai_news` (class `OpenAINewsEntry`). -/
structure OpenAINewsEntry where
  post_id : String
  title : String
  url : String
  published_at : Int
  content : Option String := none
deriving Repr, DecidableEq

/-- Entry record produced by `fetch_latest_smol_ai_issue` (class `SmolAIEntry`). -/
structure SmolAIEntry where
  post_id : String
  title : String
  url : String
  published_at : Int
  content : Option String := none
deriving Repr, DecidableEq

/-- Entry record produced by the video fetcher (dataclass `VideoEntry`). -/
structure VideoEntry where
  video_id : String
  title : String
  url : String
  published_at : Int
  description : Option String := none
  transcript : Option String := none
deriving Repr, DecidableEq

/-! Shared helpers of the two RSS-style fetchers. -/

/-- The cutoff test `since is not None and published_at <= since`. -/
def tooOld (since : Option Int) (published_at : Int) : Bool :=
  match since with
  | none => false
  | some s => published_at ≤ s

/-- Embedding of `_parse_pubdate` (identical in `openai_news.py` and
`smol_ai.py`).  `pd` models the external `parsedate_to_datetime` composed
with `astimezone(utc)` (`none` = the call raised); `now` models
`datetime.now(tz=utc)`.  Resolution order: `published_parsed`, then the
raw `published` string, then the current time. -/
def _parse_pubdate (pd : String → Option Int) (now : Int) (item : FeedItem) : Int :=
  match item.published_parsed with
  | some t => t
  | none =>
    let raw := item.published.getD ""
    if raw ≠ "" then
      match pd raw with
      | some t => t
      | none => now
    else now

/-! Embedding of `fetch_openai_news` (`openai_news.py`). -/

/-- The entry `fetch_openai_news` builds for one feed item: `post_id` and
`url` are the item link (default `""`), the title is stripped (default
`"Untitled"`), and the content is the sanitized summary, or `none` when
the summary is absent or empty. -/
def openaiItemEntry (pd : String → Option Int) (now : Int) (item : FeedItem) :
    OpenAINewsEntry :=
  let url := item.link.getD ""
  { post_id := url
    title := pyStrip (item.title.getD "Untitled")
    url := url
    published_at := _parse_pubdate pd now item
    content :=
      let raw := item.summary.getD ""
      if raw = "" then none else some (_strip_html raw) }

/-- The entry loop of `fetch_openai_news`: iteration stops (`break`) at the
first item whose publication time is not after `since`. -/
def openaiLoop (pd : String → Option Int) (now : Int) (since : Option Int) :
    List FeedItem → List OpenAINewsEntry
  | [] => []
  | item :: rest =>
    if tooOld since (_parse_pubdate pd now item) then []
    else openaiItemEntry pd now item :: openaiLoop pd now since rest

/-- Embedding of `fetch_openai_news`: a parse exception (`Except.error`) or
an empty feed yields `[]`; otherwise the early-stop loop over the entries. -/
def fetch_openai_news (pd : String → Option Int) (now : Int)
    (parse : Except String Feed) (since : Option Int) : List OpenAINewsEntry :=
  match parse with
  | .error _ => []
  | .ok feed =>
    if feed.entries.isEmpty then []
    else openaiLoop pd now since feed.entries

/-! Embedding of `fetch_latest_smol_ai_issue` (`smol_ai.py`). -/

/-- Content selection of the digest fetcher: first non-empty of
`content[0].value` and `summary`, sanitized; `none` when both are empty. -/
def smolContent (item : FeedItem) : Option String :=
  let raw0 :=
    match item.content with
    | [] => ""
    | c :: _ => c.value.getD ""
  let raw := if raw0 = "" then item.summary.getD "" else raw0
  if raw = "" then none else some (_strip_html raw)

/-- Embedding of `fetch_latest_smol_ai_issue`: a parse exception or an
empty feed yields `[]`; otherwise a one-element list built from the first
feed item only. -/
def fetch_latest_smol_ai_issue (pd : String → Option Int) (now : Int)
    (parse : Except String Feed) : List SmolAIEntry :=
  match parse with
  | .error _ => []
  | .ok feed =>
    match feed.entries with
    | [] => []
    | item :: _ =>
      let url := item.link.getD ""
      [{ post_id := url
         title := item.title.getD "Untitled"
         url := url
         published_at := _parse_pubdate pd now item
         content := smolContent item }]

/-! Embedding of the channel resolver (`youtube.py`). -/

/-- A character matched by `[\w-]` in the channel-id regular expression
(ASCII range of Python `\w`, plus the dash). -/
def idChar (c : Char) : Bool :=
  c.isAlphanum || c = '_' || c = '-'

/-- The test `_CHANNEL_ID_RE.match(s)` for `^UC[\w-]\x7b22\x7d$`: the string is
`UC` followed by exactly 22 id characters. -/
def reMatchChannelId (s : String) : Bool :=
  match s.toList with
  | 'U' :: 'C' :: rest => rest.length = 22 && rest.all idChar
  | _ => false

/-- The literal part of the scrape pattern `youtube\.com/channel/(UC[\w-]\x7b22\x7d)`. -/
def channelLit : List Char :=
  "youtube.com/channel/".toList

/-- Match a literal character sequence at the head of `cs`, returning the
remainder on success. -/
def matchLit : List Char → List Char → Option (List Char)
  | [], cs => some cs
  | _, [] => none
  | l :: ls, c :: cs => if c = l then matchLit ls cs else none

/-- Model of the Python built-in `s.startswith(pre)`: `pre` is a
character-level prefix of `s`. -/
def pyStartsWith (s pre : String) : Bool :=
  match matchLit pre.toList s.toList with
  | some _ => true
  | none => false

/-- Try the scrape pattern at the current position: the literal
`youtube.com/channel/` followed by `UC` and 22 id characters; the match
(the capture group `UC...`) is returned. -/
def channelIdAt (cs : List Char) : Option String :=
  match matchLit channelLit cs with
  | none => none
  | some rest =>
    match rest with
    | 'U' :: 'C' :: tail =>
      let body := tail.take 22
      if body.length = 22 && body.all idChar then
        some (String.mk ('U' :: 'C' :: body))
      else none
    | _ => none

/-- The search `re.search(r"youtube\.com/channel/(UC[\w-]\x7b22\x7d)", text)`:
first position where the pattern matches. -/
def findChannelId : List Char → Option String
  | [] => none
  | c :: rest =>
    match channelIdAt (c :: rest) with
    | some cid => some cid
    | none => findChannelId rest

/-- Embedding of `_scrape_channel_id`.  `http` models the external
`httpx.get` plus `raise_for_status` (`Except.error` = HTTP or network
failure, which the code converts to a `ValueError`); on success the page
body is searched for the channel-id pattern. -/
def _scrape_channel_id (http : String → Except String String) (page_url : String) :
    Except String String :=
  match http page_url with
  | .error e => .error e
  | .ok body =>
    match findChannelId body.toList with
    | some cid => .ok cid
    | none => .error ("Could not extract a channel ID from " ++ page_url)

/-- Embedding of `resolve_channel_id`.  The second component counts the
page fetches performed (`_scrape_channel_id` calls), which the Python
function makes observable only through I/O. -/
def resolve_channel_id (http : String → Except String String) (channel_input : String) :
    Except String String × Nat :=
  let ci := pyStrip channel_input
  if reMatchChannelId ci then (.ok ci, 0)
  else
    let url :=
      if pyStartsWith ci ("@") then "https://www.youtube.com/" ++ ci
      else "https://www.youtube.com/@" ++ ci
    (_scrape_channel_id http url, 1)

/-! Embedding of `fetch_videos` (`youtube.py`). -/

/-- Publication time of a feed item in `fetch_videos`: the structured
`published_parsed` field, else the current time. -/
def videoPubTime (now : Int) (item : FeedItem) : Int :=
  match item.published_parsed with
  | some t => t
  | none => now

/-- The `VideoEntry` built from one feed item: id from `yt_videoid`, URL
from `link` with a watch-URL fallback, description from
`media_description` else `summary`, stripped, with `""` becoming `none`. -/
def videoItemEntry (now : Int) (item : FeedItem) : VideoEntry :=
  let video_id := item.yt_videoid.getD ""
  let raw_description :=
    let md := item.media_description.getD ""
    if md ≠ "" then md else item.summary.getD ""
  let d := pyStrip raw_description
  { video_id := video_id
    title := item.title.getD "Untitled"
    url := item.link.getD ("https://www.youtube.com/watch?v=" ++ video_id)
    published_at := videoPubTime now item
    description := if d = "" then none else some d
    transcript := none }

/-- The entry loop of `fetch_videos`: an item older than the cutoff is
skipped (`continue`), never terminating the scan. -/
def videoLoop (now : Int) (since : Option Int) : List FeedItem → List VideoEntry
  | [] => []
  | item :: rest =>
    if tooOld since (videoPubTime now item) then videoLoop now since rest
    else videoItemEntry now item :: videoLoop now since rest

/-- Embedding of `fetch_videos`: a parse exception is re-raised as a feed
error, a feed flagged `bozo` with no entries is a feed error, and
otherwise the first `max_results` feed entries are scanned. -/
def fetch_videos (now : Int) (channel_id : String) (parse : Except String Feed)
    (since : Option Int) (max_results : Nat) : Except String (List VideoEntry) :=
  match parse with
  | .error e =>
    .error ("Unexpected error parsing RSS feed for " ++ channel_id ++ ": " ++ e)
  | .ok feed =>
    if feed.bozo && feed.entries.isEmpty then
      .error ("RSS feed for channel " ++ channel_id ++ " is malformed or empty.")
    else
      .ok (videoLoop now since (feed.entries.take max_results))

/-! Embedding of `get_transcript` (`youtube.py`). -/

/-- The exceptions the transcript backend can raise, as caught by
`get_transcript`. -/
inductive TranscriptError where
  | noTranscriptFound
  | transcriptsDisabled
  | videoUnavailable
  | other (msg : String)
deriving Repr, DecidableEq

/-- One caption snippet returned by the transcript backend; the code reads
`getattr(snippet, "text", None)`. -/
structure Snippet where
  text : Option String := none
deriving Repr, DecidableEq

/-- Embedding of `get_transcript`.  `res` models the external
`ytt_api.fetch(video_id, languages=["en"])` call: any raised exception
becomes `none`; on success the stripped non-empty snippet texts are
joined with single spaces, and an empty join becomes `none`. -/
def get_transcript (res : Except TranscriptError (List Snippet)) : Option String :=
  match res with
  | .error _ => none
  | .ok snippets =>
    let parts := snippets.filterMap fun s =>
      let t := pyStrip (s.text.getD "")
      if t = "" then none else some t
    let joined := String.intercalate (" ") parts
    if joined = "" then none else some joined

/-- Embedding of `fetch_channel_videos`: resolve the channel, fetch its
videos, and (when `include_transcripts`) attach `get_transcript` results
to each video in list order.  `parseFeed` models `feedparser.parse` of
the channel's feed URL and `tfetch` the transcript backend. -/
def fetch_channel_videos (http : String → Except String String)
    (parseFeed : String → Except String Feed)
    (tfetch : String → Except TranscriptError (List Snippet))
    (now : Int) (channel_input : String) (since : Option Int)
    (include_transcripts : Bool) (max_results : Nat) :
    Except String (List VideoEntry) :=
  match (resolve_channel_id http channel_input).1 with
  | .error e => .error e
  | .ok channel_id =>
    match fetch_videos now channel_id (parseFeed channel_id) since max_results with
    | .error e => .error e
    | .ok videos =>
      .ok (if include_transcripts then
            videos.map fun v => { v with transcript := get_transcript (tfetch v.video_id) }
          else videos)

/-! Embedding of `run_all_fetchers` (`runner.py`). -/

/-- One configured source from `sources.py`: a `\x7bname, url, fetcher\x7d`
dictionary. -/
structure Source where
  name : String
  url : String
  fetcher : String
deriving Repr, DecidableEq

/-- The mixed entry list the runner returns. -/
inductive AggEntry where
  | video (v : VideoEntry)
  | rss (e : OpenAINewsEntry)
  | digest (e : SmolAIEntry)
deriving Repr, DecidableEq

/-- Embedding of `run_all_fetchers`.  Configuration lists and fetcher
invocations are inputs: `ytFetch channel cutoff` models
`fetch_channel_videos(channel, since=cutoff)` (`Except.error` = the call
raised), `rssFetchers` and `newsFetchers` model the two registry
dictionaries, whose looked-up callables are invoked with `since=cutoff`
and with no argument respectively.  A missing registry key skips the
source; a raising invocation is caught, contributing nothing; all result
lists are concatenated in configuration order. -/
def run_all_fetchers (now : Int) (hours : Int)
    (ytChannels : List String) (rssSources newsSources : List Source)
    (ytFetch : String → Int → Except String (List VideoEntry))
    (rssFetchers : String → Option (Int → Except String (List OpenAINewsEntry)))
    (newsFetchers : String → Option (Unit → Except String (List SmolAIEntry))) :
    List AggEntry :=
  let cutoff := now - hours * 3600
  (ytChannels.flatMap fun channel =>
    match ytFetch channel cutoff with
    | .ok videos => videos.map AggEntry.video
    | .error _ => [])
  ++ (rssSources.flatMap fun src =>
    match rssFetchers src.fetcher with
    | none => []
    | some f =>
      match f cutoff with
      | .ok entries => entries.map AggEntry.rss
      | .error _ => [])
  ++ (newsSources.flatMap fun src =>
    match newsFetchers src.fetcher with
    | none => []
    | some f =>
      match f () with
      | .ok entries => entries.map AggEntry.digest
      | .error _ => [])

end Agg

namespace Agg

/-- Helper: the video-entry loop drops every item when all items in the
list are dated at most the cutoff. -/
lemma videoLoop_all_old (now s : Int) :
    ∀ l : List FeedItem, (∀ i ∈ l, videoPubTime now i ≤ s) →
      videoLoop now (some s) l = []
  | [], _ => rfl
  | item :: rest, h => by
    have hi : videoPubTime now item ≤ s := h item (by simp)
    simp [videoLoop, tooOld, hi]
    exact videoLoop_all_old now s rest (fun i hm => h i (by simp [hm]))

end Agg

/-- C1: with a `since` cutoff, `fetch_openai_news` stops at the first feed
item whose publication time is at most `since`: on a feed dated
`[t0 > t1 > t2]` with `since = t1`, the result is exactly the entry built
from the first item (the `t1` item is excluded by the `<=` comparison and
the `t2` item is never reached). -/
theorem Agg.fetch_openai_news_early_stop
    (pd : String → Option Int) (now : Int) (b : Bool)
    (i0 i1 i2 : Agg.FeedItem) (t0 t1 t2 : Int)
    (h0 : i0.published_parsed = some t0)
    (h1 : i1.published_parsed = some t1)
    (_h2 : i2.published_parsed = some t2)
    (h01 : t1 < t0) (_h12 : t2 < t1) :
    Agg.fetch_openai_news pd now (.ok ⟨b, [i0, i1, i2]⟩) (some t1)
      = [Agg.openaiItemEntry pd now i0] := by
  simp [Agg.fetch_openai_news, Agg.openaiLoop, Agg.tooOld, Agg._parse_pubdate, h0, h1,
        h01.not_le, le_refl]

/-- Witness for C1 at a concrete three-item feed dated 30, 20, 10 with the
cutoff at 20. -/
theorem Agg.fetch_openai_news_early_stop_witness :
    Agg.fetch_openai_news (fun _ => none) 0
        (.ok ⟨false, [⟨none, none, some 30, none, none, none, none, []⟩,
                      ⟨none, none, some 20, none, none, none, none, []⟩,
                      ⟨none, none, some 10, none, none, none, none, []⟩]⟩) (some 20)
      = [Agg.openaiItemEntry (fun _ => none) 0 ⟨none, none, some 30, none, none, none, none, []⟩] :=
  Agg.fetch_openai_news_early_stop (fun _ => none) 0 false _ _ _ 30 20 10
    rfl rfl rfl (by decide) (by decide)

/-- C2: with a `since` cutoff, `fetch_videos` skips each too-old item
individually and keeps scanning: on an out-of-order feed dated
`[t1, t0, t2]` with `t0 > t1 > t2` and `since = t1`, the result is exactly
the entry built from the item dated `t0`. -/
theorem Agg.fetch_videos_skip_not_break
    (now : Int) (cid : String) (b : Bool)
    (i0 i1 i2 : Agg.FeedItem) (t0 t1 t2 : Int) (m : Nat)
    (h0 : i0.published_parsed = some t0)
    (h1 : i1.published_parsed = some t1)
    (h2 : i2.published_parsed = some t2)
    (h01 : t1 < t0) (h12 : t2 < t1) (hm : 3 ≤ m) :
    Agg.fetch_videos now cid (.ok ⟨b, [i1, i0, i2]⟩) (some t1) m
      = .ok [Agg.videoItemEntry now i0] := by
  have htake : ([i1, i0, i2] : List Agg.FeedItem).take m = [i1, i0, i2] :=
    List.take_of_length_le (by simpa using hm)
  simp [Agg.fetch_videos, htake, Agg.videoLoop, Agg.tooOld, Agg.videoPubTime,
        h0, h1, h2, h01.not_le, h12.le, le_refl]

/-- Witness for C2 at a concrete out-of-order feed dated 20, 30, 10 with
the cutoff at 20 and the default cap of 50. -/
theorem Agg.fetch_videos_skip_not_break_witness :
    Agg.fetch_videos 0 "UCx" (.ok ⟨false, [⟨none, none, some 20, none, none, none, none, []⟩,
                                           ⟨none, none, some 30, none, none, none, none, []⟩,
                                           ⟨none, none, some 10, none, none, none, none, []⟩]⟩)
        (some 20) 50
      = .ok [Agg.videoItemEntry 0 ⟨none, none, some 30, none, none, none, none, []⟩] :=
  Agg.fetch_videos_skip_not_break 0 "UCx" false _ _ _ 30 20 10 50
    rfl rfl rfl (by decide) (by decide) (by decide)

/-- C3: `fetch_videos` caps the raw feed at `max_results` before the
`since` filter: when the feed has more than `max_results` entries and the
first `max_results` of them are all dated at most `since`, the result is
the empty list, regardless of the remaining entries. -/
theorem Agg.fetch_videos_cap_before_filter
    (now : Int) (cid : String) (feed : Agg.Feed) (s : Int) (m : Nat)
    (hlen : m < feed.entries.length)
    (hold : ∀ item ∈ feed.entries.take m, Agg.videoPubTime now item ≤ s) :
    Agg.fetch_videos now cid (.ok feed) (some s) m = .ok [] := by
  have hne : feed.entries.isEmpty = false := by
    cases h : feed.entries with
    | nil => rw [h] at hlen; simp at hlen
    | cons a l => simp
  simp [Agg.fetch_videos, hne, Agg.videoLoop_all_old now s _ hold]

/-- Witness for C3: a two-entry feed capped at one entry, whose first
entry is dated 5, below the cutoff 10, while the second entry, dated 20,
lies inside the window but beyond the cap. -/
theorem Agg.fetch_videos_cap_before_filter_witness :
    Agg.fetch_videos 0 "UCx"
        (.ok ⟨false, [⟨none, none, some 5, none, none, none, none, []⟩,
                      ⟨none, none, some 20, none, none, none, none, []⟩]⟩)
        (some 10) 1
      = .ok [] :=
  Agg.fetch_videos_cap_before_filter 0 "UCx" _ 10 1 (by decide)
    (by intro item h; simp at h; simp [h, Agg.videoPubTime])

namespace Agg

/-- Helper: an id character is not Python whitespace. -/
lemma isPyWS_eq_false_of_idChar {c : Char} (h : idChar c = true) : isPyWS c = false := by
  cases hws : isPyWS c with
  | false => rfl
  | true =>
    exfalso
    have hc : ((((c = ' ' ∨ c = '\t') ∨ c = '\n') ∨ c = '\r') ∨ c = '\x0b') ∨ c = '\x0c' := by
      simpa [isPyWS] using hws
    rcases hc with ((((rfl | rfl) | rfl) | rfl) | rfl) | rfl <;> exact absurd h (by decide)

/-- Helper: a string matching the canonical channel-id pattern has no
surrounding whitespace, so `strip` leaves it unchanged. -/
lemma pyStrip_eq_self_of_reMatch (s : String) (h : reMatchChannelId s = true) :
    pyStrip s = s := by
  unfold reMatchChannelId at h
  split at h
  case h_2 => exact absurd h (by simp)
  case h_1 rest heq =>
    have hparts : rest.length = 22 ∧ rest.all idChar = true := by
      simpa using h
    rcases List.eq_nil_or_concat rest with rfl | ⟨q, b, rfl⟩
    · simp at hparts
    · have hb : idChar b = true := by
        have := hparts.2
        rw [List.all_eq_true] at this
        exact this b (by simp)
      have d1 : List.dropWhile isPyWS ('U' :: 'C' :: q.concat b)
          = 'U' :: 'C' :: q.concat b := by
        rw [List.dropWhile_cons, if_neg]
        decide
      have d2 : List.dropWhile isPyWS (('U' :: 'C' :: q.concat b).reverse)
          = ('U' :: 'C' :: q.concat b).reverse := by
        have hrev : ('U' :: 'C' :: q.concat b).reverse
            = b :: ('U' :: 'C' :: q).reverse := by
          simp [List.concat_eq_append]
        rw [hrev, List.dropWhile_cons, if_neg]
        rw [isPyWS_eq_false_of_idChar hb]
        simp
      unfold pyStrip
      rw [heq, d1, d2, List.reverse_reverse, ← heq]
      cases s
      rfl

/-- Helper: a string beginning with the handle marker cannot match the
canonical channel-id pattern. -/
lemma reMatch_false_of_pyStartsWithAt {s : String}
    (h : pyStartsWith s ("@") = true) : reMatchChannelId s = false := by
  unfold pyStartsWith at h
  split at h
  case h_2 => exact absurd h (by simp)
  case h_1 cs heq =>
    have : ("@".toList : List Char) = ['@'] := rfl
    rw [this] at heq
    rcases hs : s.toList with _ | ⟨c, tail⟩
    · rw [hs] at heq; simp [matchLit] at heq
    · rw [hs] at heq
      unfold matchLit at heq
      by_cases hc : c = '@'
      · subst hc
        unfold reMatchChannelId
        rw [hs]
        rfl
      · rw [if_neg hc] at heq
        exact absurd heq (by simp)

end Agg

/-- C4: an input already matching the canonical channel-id pattern (`UC`
plus 22 id characters) is returned unchanged with zero page fetches; an
input whose stripped form is an `@`-handle triggers exactly one page
fetch. -/
theorem Agg.resolve_channel_id_spec (http : String → Except String String)
    (input : String) :
    (Agg.reMatchChannelId input = true →
       Agg.resolve_channel_id http input = (.ok input, 0)) ∧
    (Agg.pyStartsWith (Agg.pyStrip input) ("@") = true →
       (Agg.resolve_channel_id http input).2 = 1) := by
  constructor
  · intro h
    have hstrip : Agg.pyStrip input = input := Agg.pyStrip_eq_self_of_reMatch input h
    simp [Agg.resolve_channel_id, hstrip, h]
  · intro h
    have hfalse : Agg.reMatchChannelId (Agg.pyStrip input) = false :=
      Agg.reMatch_false_of_pyStartsWithAt h
    simp [Agg.resolve_channel_id, hfalse]

/-- Witness for C4: the 24-character id input resolves to itself with no
fetch, and the handle input performs exactly one fetch. -/
theorem Agg.resolve_channel_id_spec_witness :
    Agg.resolve_channel_id (fun _ => .error ("no network")) ("UCabcdefghijklmnopqrstuv")
        = (.ok "UCabcdefghijklmnopqrstuv", 0) ∧
    (Agg.resolve_channel_id (fun _ => .error ("no network")) ("@SomeHandle")).2 = 1 :=
  ⟨(Agg.resolve_channel_id_spec _ _).1 (by decide),
   (Agg.resolve_channel_id_spec _ _).2 (by decide)⟩

/-- C5 counterexample: on the spec's example input the sanitizer does not
return the claimed string: the space left of the paragraph break survives
the whitespace collapse, which replaces space runs by one space and never
deletes a space adjacent to a newline. -/
theorem Agg.strip_html_example_ne_claim :
    Agg._strip_html ("<p>Hello &amp; <b>world</b></p>  \n\n\n\nBye")
      ≠ "Hello & world\n\nBye" := by
  decide

/-- C5 (amended): sanitizing the example input yields
`"Hello & world \n\nBye"`: tags removed, the entity decoded, space runs
collapsed to single spaces (one space remains before the paragraph
break), the four newlines collapsed to a blank line, and the ends
trimmed. -/
theorem Agg.strip_html_example :
    Agg._strip_html ("<p>Hello &amp; <b>world</b></p>  \n\n\n\nBye")
      = "Hello & world \n\nBye" := by
  decide

namespace Agg

/-- Helper: `get_transcript` never returns the empty string. -/
lemma get_transcript_ne_some_empty (res : Except TranscriptError (List Snippet)) :
    get_transcript res ≠ some "" := by
  unfold get_transcript
  cases res with
  | error e => simp
  | ok snippets =>
    by_cases hj :
        String.intercalate (" ")
          (snippets.filterMap fun s =>
            let t := pyStrip (s.text.getD "")
            if t = "" then none else some t) = ""
    · simp [hj]
    · simp [hj]

end Agg

/-- C6: `get_transcript` maps every backend failure to `none`; on success
it joins the stripped non-empty snippet texts with single spaces, an
all-empty snippet list yields `none`, and the result is never the empty
string. -/
theorem Agg.get_transcript_spec (res : Except Agg.TranscriptError (List Agg.Snippet)) :
    ((∃ e, res = .error e) → Agg.get_transcript res = none) ∧
    (∀ snippets, res = .ok snippets →
       ((∀ s ∈ snippets, Agg.pyStrip (s.text.getD "") = "") →
          Agg.get_transcript res = none)) ∧
    Agg.get_transcript res ≠ some "" := by
  refine ⟨?_, ?_, Agg.get_transcript_ne_some_empty res⟩
  · rintro ⟨e, rfl⟩
    rfl
  · rintro snippets rfl hall
    have hparts :
        (snippets.filterMap fun s =>
          let t := Agg.pyStrip (s.text.getD "")
          if t = "" then none else some t) = [] := by
      rw [List.filterMap_eq_nil_iff]
      intro s hs
      simp [hall s hs]
    have hjoin : String.intercalate (" ") ([] : List String) = "" := rfl
    unfold Agg.get_transcript
    simp [hparts, hjoin]

/-- Witness for C6 at a disabled-transcript failure and at a two-snippet
success whose texts are whitespace only. -/
theorem Agg.get_transcript_spec_witness :
    Agg.get_transcript (.error Agg.TranscriptError.transcriptsDisabled) = none ∧
    Agg.get_transcript (.ok [⟨some (" ")⟩, ⟨none⟩]) = none :=
  ⟨(Agg.get_transcript_spec _).1 ⟨Agg.TranscriptError.transcriptsDisabled, rfl⟩,
   (Agg.get_transcript_spec _).2.1 [⟨some (" ")⟩, ⟨none⟩] rfl (by decide)⟩

/-- C7: `fetch_videos` fails exactly when feed parsing raised or the feed
is flagged malformed while having zero entries; in every other case,
including a well-formed feed with zero entries, it returns a list. -/
theorem Agg.fetch_videos_error_iff (now : Int) (cid : String)
    (parse : Except String Agg.Feed) (since : Option Int) (m : Nat) :
    (∃ msg, Agg.fetch_videos now cid parse since m = .error msg) ↔
      ((∃ e, parse = .error e) ∨
        ∃ feed, parse = .ok feed ∧ feed.bozo = true ∧ feed.entries = []) := by
  cases parse with
  | error e => simp [Agg.fetch_videos]
  | ok feed =>
    by_cases hb : (feed.bozo && feed.entries.isEmpty) = true
    · rw [Bool.and_eq_true] at hb
      simp [Agg.fetch_videos, hb.1, hb.2, List.isEmpty_iff.mp hb.2]
    · rw [Bool.and_eq_true] at hb
      push_neg at hb
      simp only [Agg.fetch_videos]
      rcases hbz : feed.bozo with _ | _
      · simp [hbz]
      · have hne : feed.entries.isEmpty = false :=
          Bool.eq_false_iff.mpr (fun h => by simp [hbz, h] at hb)
        have hne' : feed.entries ≠ [] := fun h => by simp [h] at hne
        simp [hbz, hne, hne']

/-- C8: the RSS news fetcher and the newsletter fetcher swallow feed
failures: a feed-parse exception or a feed with zero entries yields the
empty list, never an error. -/
theorem Agg.rss_fetchers_swallow_feed_errors (pd : String → Option Int) (now : Int)
    (since : Option Int) :
    (∀ e, Agg.fetch_openai_news pd now (.error e) since = []) ∧
    (∀ feed : Agg.Feed, feed.entries = [] →
       Agg.fetch_openai_news pd now (.ok feed) since = []) ∧
    (∀ e, Agg.fetch_latest_smol_ai_issue pd now (.error e) = []) ∧
    (∀ feed : Agg.Feed, feed.entries = [] →
       Agg.fetch_latest_smol_ai_issue pd now (.ok feed) = []) := by
  refine ⟨fun e => rfl, fun feed h => ?_, fun e => rfl, fun feed h => ?_⟩
  · simp [Agg.fetch_openai_news, h]
  · simp [Agg.fetch_latest_smol_ai_issue, h]

/-- Witness for C8 at a concrete parse failure and a concrete malformed
empty feed. -/
theorem Agg.rss_fetchers_swallow_feed_errors_witness :
    Agg.fetch_openai_news (fun _ => none) 0 (.error ("boom")) none = [] ∧
    Agg.fetch_openai_news (fun _ => none) 0 (.ok ⟨true, []⟩) none = [] ∧
    Agg.fetch_latest_smol_ai_issue (fun _ => none) 0 (.error ("boom")) = [] ∧
    Agg.fetch_latest_smol_ai_issue (fun _ => none) 0 (.ok ⟨true, []⟩) = [] :=
  ⟨(Agg.rss_fetchers_swallow_feed_errors (fun _ => none) 0 none).1 "boom",
   (Agg.rss_fetchers_swallow_feed_errors (fun _ => none) 0 none).2.1 ⟨true, []⟩ rfl,
   (Agg.rss_fetchers_swallow_feed_errors (fun _ => none) 0 none).2.2.1 "boom",
   (Agg.rss_fetchers_swallow_feed_errors (fun _ => none) 0 none).2.2.2 ⟨true, []⟩ rfl⟩

/-- C9 counterexample: a feed item whose summary is the one-space string
(present and non-empty, but sanitizing to empty text) produces an entry
whose `content` is the empty string, not `None`. -/
theorem Agg.openai_empty_content_counterexample :
    (Agg.fetch_openai_news (fun _ => none) 0
        (.ok ⟨false, [⟨none, none, some 0, none, some (" "), none, none, []⟩]⟩) none).map
      (fun e => e.content) = [some ""] := by
  decide

namespace Agg

/-- Helper: every entry built by the video-fetch loop has a description
that is `none` rather than the empty string, and no transcript. -/
lemma videoLoop_mem_spec (now : Int) (since : Option Int) (l : List FeedItem) :
    ∀ v ∈ videoLoop now since l, v.description ≠ some "" ∧ v.transcript = none := by
  induction l with
  | nil => intro v hv; simp [videoLoop] at hv
  | cons item rest ih =>
    intro v hv
    rw [videoLoop] at hv
    by_cases hc : tooOld since (videoPubTime now item) = true
    · rw [if_pos hc] at hv
      exact ih v hv
    · rw [if_neg hc] at hv
      rcases List.mem_cons.mp hv with rfl | hv'
      · refine ⟨?_, rfl⟩
        simp only [videoItemEntry]
        split
        · simp
        · simp_all
      · exact ih v hv'

/-- Helper: an `ok` result of `fetch_videos` is the video-fetch loop on a
prefix of the feed, so its entries satisfy the loop invariant. -/
lemma fetch_videos_ok_mem (now : Int) (cid : String) (parse : Except String Feed)
    (since : Option Int) (m : Nat) (vs : List VideoEntry)
    (h : fetch_videos now cid parse since m = .ok vs) :
    ∀ v ∈ vs, v.description ≠ some "" ∧ v.transcript = none := by
  cases parse with
  | error e => simp [fetch_videos] at h
  | ok feed =>
    rw [fetch_videos] at h
    by_cases hb : (feed.bozo && feed.entries.isEmpty) = true
    · rw [if_pos hb] at h
      simp at h
    · rw [if_neg hb] at h
      have hvs : videoLoop now since (feed.entries.take m) = vs := by
        simpa using h
      rw [← hvs]
      exact videoLoop_mem_spec now since (feed.entries.take m)

end Agg

/-- C9 (amended): video entries never carry an empty-string description
or transcript (`None` stands for absence there, both from `fetch_videos`
and after transcript attachment in `fetch_channel_videos`), and
`get_transcript` never returns the empty string; for the RSS and digest
fetchers, `content` is `None` when the underlying feed value is absent,
but a present non-empty raw value that sanitizes to empty text yields an
empty-string `content`, so the never-empty-string part fails for
`content` (see the counterexample). -/
theorem Agg.optional_fields_amended :
    (∀ (now : Int) (cid : String) (parse : Except String Agg.Feed) (since : Option Int)
       (m : Nat) (vs : List Agg.VideoEntry),
       Agg.fetch_videos now cid parse since m = .ok vs →
       ∀ v ∈ vs, v.description ≠ some "" ∧ v.transcript = none) ∧
    (∀ (http : String → Except String String) (parseFeed : String → Except String Agg.Feed)
       (tfetch : String → Except Agg.TranscriptError (List Agg.Snippet)) (now : Int)
       (input : String) (since : Option Int) (it : Bool) (m : Nat) (vs : List Agg.VideoEntry),
       Agg.fetch_channel_videos http parseFeed tfetch now input since it m = .ok vs →
       ∀ v ∈ vs, v.description ≠ some "" ∧ v.transcript ≠ some "") ∧
    (∀ res, Agg.get_transcript res ≠ some "") ∧
    (∀ (pd : String → Option Int) (now : Int) (item : Agg.FeedItem),
       item.summary = none → (Agg.openaiItemEntry pd now item).content = none) ∧
    (∀ item : Agg.FeedItem, item.content = [] → item.summary = none →
       Agg.smolContent item = none) := by
  refine ⟨Agg.fetch_videos_ok_mem, ?_, Agg.get_transcript_ne_some_empty, ?_, ?_⟩
  · intro http parseFeed tfetch now input since it m vs h v hv
    rw [Agg.fetch_channel_videos] at h
    split at h
    · simp at h
    · split at h
      · simp at h
      · rename_i videos hf
        have hvs : (if it then
              videos.map fun v =>
                { v with transcript := Agg.get_transcript (tfetch v.video_id) }
            else videos) = vs := by
          simpa using h
        have hbase := Agg.fetch_videos_ok_mem _ _ _ _ _ videos hf
        rw [← hvs] at hv
        by_cases hit : it = true
        · rw [if_pos hit] at hv
          rcases List.mem_map.mp hv with ⟨v0, hv0, rfl⟩
          exact ⟨(hbase v0 hv0).1, Agg.get_transcript_ne_some_empty _⟩
        · rw [if_neg hit] at hv
          refine ⟨(hbase v hv).1, ?_⟩
          rw [(hbase v hv).2]
          simp
  · intro pd now item h
    simp [Agg.openaiItemEntry, h]
  · intro item hc hs
    simp [Agg.smolContent, hc, hs]

/-- Witness for C9 (amended) at concrete inputs: a one-item video feed
with a whitespace-only description, an empty transcript fetch, and items
with absent content fields. -/
theorem Agg.optional_fields_amended_witness :
    ((Agg.videoItemEntry 0 ⟨none, none, some 5, none, some ("  "), none, none, []⟩).description
        ≠ some "" ∧
      (Agg.videoItemEntry 0 ⟨none, none, some 5, none, some ("  "), none, none, []⟩).transcript
        = none) ∧
    Agg.get_transcript (.ok []) ≠ some "" ∧
    (Agg.openaiItemEntry (fun _ => none) 0
        (⟨none, none, some 0, none, none, none, none, []⟩ : Agg.FeedItem)).content = none ∧
    Agg.smolContent ⟨none, none, some 0, none, none, none, none, []⟩ = none :=
  ⟨Agg.optional_fields_amended.1 0 "UCx"
      (.ok ⟨false, [⟨none, none, some 5, none, some ("  "), none, none, []⟩]⟩) none 50
      [Agg.videoItemEntry 0 ⟨none, none, some 5, none, some ("  "), none, none, []⟩] rfl
      (Agg.videoItemEntry 0 ⟨none, none, some 5, none, some ("  "), none, none, []⟩) (by simp),
   Agg.optional_fields_amended.2.2.1 (.ok []),
   Agg.optional_fields_amended.2.2.2.1 (fun _ => none) 0 _ rfl,
   Agg.optional_fields_amended.2.2.2.2 _ rfl rfl⟩

/-- C10: `run_all_fetchers` isolates per-source failures: removing a
source whose fetcher invocation raises leaves the aggregated result
unchanged, for a failing video channel, a failing registered RSS source,
and a failing registered newsletter source alike, so every other
configured source's entries still appear, in source order. -/
theorem Agg.run_all_fetchers_isolates_failures (now hours : Int)
    (ytFetch : String → Int → Except String (List Agg.VideoEntry))
    (rssFetchers : String → Option (Int → Except String (List Agg.OpenAINewsEntry)))
    (newsFetchers : String → Option (Unit → Except String (List Agg.SmolAIEntry))) :
    (∀ (pre post : List String) (ch : String) (rssS newsS : List Agg.Source) (msg : String),
       ytFetch ch (now - hours * 3600) = .error msg →
       Agg.run_all_fetchers now hours (pre ++ ch :: post) rssS newsS
           ytFetch rssFetchers newsFetchers
         = Agg.run_all_fetchers now hours (pre ++ post) rssS newsS
             ytFetch rssFetchers newsFetchers) ∧
    (∀ (ytS : List String) (pre post : List Agg.Source) (src : Agg.Source)
       (newsS : List Agg.Source) (f : Int → Except String (List Agg.OpenAINewsEntry))
       (msg : String),
       rssFetchers src.fetcher = some f → f (now - hours * 3600) = .error msg →
       Agg.run_all_fetchers now hours ytS (pre ++ src :: post) newsS
           ytFetch rssFetchers newsFetchers
         = Agg.run_all_fetchers now hours ytS (pre ++ post) newsS
             ytFetch rssFetchers newsFetchers) ∧
    (∀ (ytS : List String) (rssS : List Agg.Source) (pre post : List Agg.Source)
       (src : Agg.Source) (f : Unit → Except String (List Agg.SmolAIEntry)) (msg : String),
       newsFetchers src.fetcher = some f → f () = .error msg →
       Agg.run_all_fetchers now hours ytS rssS (pre ++ src :: post)
           ytFetch rssFetchers newsFetchers
         = Agg.run_all_fetchers now hours ytS rssS (pre ++ post)
             ytFetch rssFetchers newsFetchers) := by
  refine ⟨?_, ?_, ?_⟩
  · intro pre post ch rssS newsS msg h
    simp [Agg.run_all_fetchers, List.flatMap_append, h]
  · intro ytS pre post src newsS f msg hreg h
    simp [Agg.run_all_fetchers, List.flatMap_append, hreg, h]
  · intro ytS rssS pre post src f msg hreg h
    simp [Agg.run_all_fetchers, List.flatMap_append, hreg, h]

/-- Witness for C10: with one failing video channel, one failing RSS
source and one failing newsletter source, each removal leaves the
aggregate unchanged. -/
theorem Agg.run_all_fetchers_isolates_failures_witness :
    Agg.run_all_fetchers 0 0 ["bad"] [] []
        (fun _ _ => .error ("x")) (fun _ => none) (fun _ => none)
      = Agg.run_all_fetchers 0 0 [] [] []
          (fun _ _ => .error ("x")) (fun _ => none) (fun _ => none) ∧
    Agg.run_all_fetchers 0 0 [] [⟨"openai_news", "u", "openai_news"⟩] []
        (fun _ _ => .error ("x")) (fun _ => some (fun _ => .error ("y"))) (fun _ => none)
      = Agg.run_all_fetchers 0 0 [] [] []
          (fun _ _ => .error ("x")) (fun _ => some (fun _ => .error ("y"))) (fun _ => none) ∧
    Agg.run_all_fetchers 0 0 [] [] [⟨"smol_ai", "u", "smol_ai"⟩]
        (fun _ _ => .error ("x")) (fun _ => none) (fun _ => some (fun _ => .error ("z")))
      = Agg.run_all_fetchers 0 0 [] [] []
          (fun _ _ => .error ("x")) (fun _ => none) (fun _ => some (fun _ => .error ("z"))) :=
  ⟨(Agg.run_all_fetchers_isolates_failures 0 0 _ _ _).1 [] [] "bad" [] [] "x" rfl,
   (Agg.run_all_fetchers_isolates_failures 0 0 _ _ _).2.1 [] [] []
     ⟨"openai_news", "u", "openai_news"⟩ [] (fun _ => .error ("y")) "y" rfl rfl,
   (Agg.run_all_fetchers_isolates_failures 0 0 _ _ _).2.2 [] [] [] []
     ⟨"smol_ai", "u", "smol_ai"⟩ (fun _ => .error ("z")) "z" rfl rfl⟩
